import Mathlib

/-!
Shallow embedding of the LinkMusicBot repository (converter.py, handler.py,
bot.py).  Pure string manipulation is translated directly; every outbound
HTTP/API call is represented by an explicit environment function whose result
models the remote service's (possibly failing) response.
-/

namespace LinkMusicBot

/-! ## URL parsing

Model of the parts of `urllib.parse.urlparse` / `parse_qs` that the code
uses: `netloc`, `path`, `query`, and query-string key/value pairs.  The
parse is fallible: `urlsplit` raises `ValueError("Invalid IPv6 URL")` when
the netloc holds a `[` without a `]` or vice versa, and CPython removes
every tab, CR and LF from the URL before splitting.  Percent-decoding and
plus-decoding of query fields, the newest CPython's rejection of bracketed
non-IP hosts, and its stripping of leading/trailing control characters are
not modelled (no claim and no compared host involves them). -/

/-- Characters allowed in a URL scheme (`urllib.parse.scheme_chars`). -/
def isSchemeChar (c : Char) : Bool :=
  c.isAlpha || c.isDigit || c == '+' || c == '-' || c == '.'

/-- Model of `urlparse` drops the fragment: everything from the first `#` on. -/
def dropFragment (cs : List Char) : List Char :=
  cs.takeWhile (fun c => c ≠ '#')

/-- Strip a leading `scheme:` when the characters before the first `:` form a
valid scheme (first char alphabetic, all scheme chars); otherwise leave the
input unchanged.  Mirrors `urllib.parse.urlsplit`. -/
def dropScheme (cs : List Char) : List Char :=
  let pre := cs.takeWhile (fun c => c ≠ ':')
  if pre.length < cs.length
      && (match pre with | [] => false | c :: _ => c.isAlpha)
      && pre.all isSchemeChar then
    cs.drop (pre.length + 1)
  else
    cs

/-- The netloc characters: present only when the post-scheme text starts with
`//`, and then extending to the next `/`, `?` or `#`. -/
def netlocChars (cs : List Char) : List Char :=
  match dropScheme (dropFragment cs) with
  | '/' :: '/' :: t => t.takeWhile (fun c => c ≠ '/' && c ≠ '?' && c ≠ '#')
  | _ => []

/-- Everything after the netloc (or the whole post-scheme text when there is
no `//`). -/
def afterNetloc (cs : List Char) : List Char :=
  match dropScheme (dropFragment cs) with
  | '/' :: '/' :: t => t.dropWhile (fun c => c ≠ '/' && c ≠ '?' && c ≠ '#')
  | rest => rest

/-- CPython's `_UNSAFE_URL_BYTES_TO_REMOVE`: every tab, CR and LF is removed
from the URL before splitting. -/
def stripUnsafe (cs : List Char) : List Char :=
  cs.filter (fun c => c ≠ '\t' && c ≠ '\r' && c ≠ '\n')

/-- The bracket check of `urlsplit`: a netloc with `[` but no `]`, or `]`
but no `[`, raises `ValueError("Invalid IPv6 URL")`. -/
def netlocOk (nl : List Char) : Bool :=
  !((nl.contains '[' && !nl.contains ']') || (nl.contains ']' && !nl.contains '['))

/-- The components of a parsed URL that the code reads. -/
structure UrlParts where
  netloc : String
  path : String
  query : String
deriving Repr, DecidableEq

/-- Model of `urllib.parse.urlparse`: remove tab/CR/LF, split off fragment,
scheme and netloc, raise on a mismatched bracket in the netloc, then split
path and query on the first `?`. -/
def urlparse (url : String) : Except Unit UrlParts :=
  let cs := stripUnsafe url.toList
  let nl := netlocChars cs
  if netlocOk nl then
    .ok { netloc := ⟨nl⟩,
          path := ⟨(afterNetloc cs).takeWhile (fun c => c ≠ '?')⟩,
          query := ⟨((afterNetloc cs).dropWhile (fun c => c ≠ '?')).drop 1⟩ }
  else
    .error ()

/-- Split a character list on a separator, Python-`str.split` style (empty
input gives one empty field). -/
def splitOnChar (sep : Char) : List Char → List (List Char)
  | [] => [[]]
  | c :: cs =>
    let r := splitOnChar sep cs
    if c = sep then [] :: r
    else
      match r with
      | [] => [[c]]
      | h :: t => (c :: h) :: t

/-- Split a query field on its first `=`, Python `split('=', 1)`; `none`
when there is no `=` or the value is empty (the default
`keep_blank_values=False` of `parse_qs`). -/
def splitField (cs : List Char) : Option (String × String) :=
  let name := cs.takeWhile (fun c => c ≠ '=')
  if name.length = cs.length then none
  else
    let value := cs.drop (name.length + 1)
    if value.isEmpty then none else some (⟨name⟩, ⟨value⟩)

/-- Model of `parse_qs(urlparse(url).query)` as an ordered list of pairs: fields are
split on `&`; a pair is kept only when it has an `=` and a non-empty value.
Fallible because `urlparse` is. -/
def queryPairs (url : String) : Except Unit (List (String × String)) :=
  (urlparse url).map fun u => (splitOnChar '&' u.query.toList).filterMap splitField

/-! ## Data model (`converter.py`)

`cover_art` is not set by the `Song`/`Album` constructors in `converter.py`;
it is read by `make_iqr`.  Modelled from the spec: cover art is "an attribute
on the resolved item, optional". -/

structure CoverArt where
  url : String
  width : Nat
  height : Nat
deriving Repr, DecidableEq

/-- Model of `converter.Album`.  `cover_art` is modelled from the spec (optional
attribute on the resolved item). -/
structure Album where
  title : String
  artist : String
  cover_art : Option CoverArt := none
deriving Repr, DecidableEq

/-- Model of `Album.__str__`: `'{} by {}'.format(self.title, self.artist)`. -/
def Album.str (a : Album) : String :=
  a.title ++ " by " ++ a.artist

/-- Model of `converter.Song`.  `album` is an `Option` because `YouTube.link_to_song`
passes Python `None` when the page has no Album row.  `cover_art` is modelled
from the spec (optional attribute on the resolved item). -/
structure Song where
  title : String
  artist : String
  album : Option String
  cover_art : Option CoverArt := none
deriving Repr, DecidableEq

/-- Model of `Song.__str__`: the separator is the literal three-character sequence
`â€”` found in the source file (bytes C3A2 E282AC E2809D, a double-encoded
em-dash). -/
def Song.str (s : Song) : String :=
  s.artist ++ " â€” " ++ s.title

/-- A resolved item: the union {Song, Album}. -/
inductive Item where
  | song (s : Song)
  | album (a : Album)
deriving Repr, DecidableEq

def Item.str : Item → String
  | .song s => s.str
  | .album a => a.str

def Item.cover_art : Item → Option CoverArt
  | .song s => s.cover_art
  | .album a => a.cover_art

/-- Errors an adapter operation can produce.  `resolution` is the explicit
`raise ValueError(...)` ("couldn't find any results" / "not a song/album");
`transport` is a failure of the underlying HTTP/API call; `malformed` is any
other exception raised while picking the response apart (KeyError,
IndexError, AttributeError). -/
inductive AdapterErr where
  | transport
  | resolution
  | malformed
deriving Repr, DecidableEq

/-! ## The configured services (`handler.MUSIC_SERVICES`) -/

inductive Service where
  | appleMusic
  | youtube
  | spotify
deriving Repr, DecidableEq

/-- Model of `MUSIC_SERVICES = (AppleMusic(), YouTube(), Spotify())`. -/
def MUSIC_SERVICES : List Service :=
  [.appleMusic, .youtube, .spotify]

def Service.service_name : Service → String
  | .appleMusic => "Apple Music"
  | .youtube => "YouTube"
  | .spotify => "Spotify"

/-- Model of `hasattr(service, "search")`: none of the three adapter classes in
`converter.py` defines a `search` method, so this is `false` for each. -/
def Service.hasSearch : Service → Bool
  | .appleMusic => false
  | .youtube => false
  | .spotify => false

/-- Model of Python `str.lower()`, character-wise (ASCII case mapping; the
hosts and commands the code lowercases are ASCII). -/
def strLower (s : String) : String :=
  ⟨s.toList.map Char.toLower⟩

/-- Model of `AppleMusic.can_handle_link`.  Fallible: the `urlparse` call
raises on a netloc with a mismatched bracket. -/
def AppleMusic.can_handle_link (link : String) : Except Unit Bool :=
  (urlparse link).map (fun u => strLower u.netloc == "itunes.apple.com")

/-- Model of `AppleMusic.link_is_song`: `'i' in parse_qs(urlparse(link).query)`. -/
def AppleMusic.link_is_song (link : String) : Except Unit Bool :=
  (queryPairs link).map (fun ps => (ps.map (·.1)).contains "i")

/-- Model of `Spotify.can_handle_link`. -/
def Spotify.can_handle_link (link : String) : Except Unit Bool :=
  (urlparse link).map (fun u => strLower u.netloc == "open.spotify.com")

/-- Does `cs` start with `pat`? -/
def startsWithChars : List Char → List Char → Bool
  | [], _ => true
  | _ :: _, [] => false
  | p :: ps, c :: cs => p == c && startsWithChars ps cs

/-- Does `cs` contain `pat` as a contiguous substring?  (Python `in` on
strings.) -/
def hasSubstring (pat : List Char) : List Char → Bool
  | [] => startsWithChars pat []
  | c :: cs => startsWithChars pat (c :: cs) || hasSubstring pat cs

/-- Model of `Spotify.link_is_song`: `'track' in link` (substring test on the whole
link). -/
def Spotify.link_is_song (link : String) : Bool :=
  hasSubstring "track".toList link.toList

/-- Model of `YouTube.can_handle_link`. -/
def YouTube.can_handle_link (link : String) : Except Unit Bool :=
  (urlparse link).map fun u =>
    let n := strLower u.netloc
    n == "youtube.com" || n == "www.youtube.com" || n == "m.youtube.com" || n == "youtu.be"

/-- Model of `YouTube.link_is_song`. -/
def YouTube.link_is_song (link : String) : Except Unit Bool :=
  (urlparse link).map fun u =>
    let n := strLower u.netloc
    if n == "youtube.com" || n == "www.youtube.com" || n == "m.youtube.com" then
      u.path == "/watch"
    else
      true

def Service.can_handle_link : Service → String → Except Unit Bool
  | .appleMusic => AppleMusic.can_handle_link
  | .youtube => YouTube.can_handle_link
  | .spotify => Spotify.can_handle_link

/-- The song/album classifier per service.  `Spotify.link_is_song` is a pure
substring test and cannot raise; the other two parse the URL. -/
def Service.link_is_song : Service → String → Except Unit Bool
  | .appleMusic => AppleMusic.link_is_song
  | .youtube => YouTube.link_is_song
  | .spotify => fun link => .ok (Spotify.link_is_song link)

/-! ## AppleMusic adapter (`converter.AppleMusic`) -/

/-- The query parameters `AppleMusic._search` sends to
`https://itunes.apple.com/search`.  (`attribute` is a Lean keyword, hence the
field name `attrib`.) -/
structure AMQuery where
  term : String
  country : String
  limit : Nat
  lang : String
  version : Nat
  explicit : Option String := none
  media : Option String := none
  entity : Option String := none
  attrib : Option String := none
deriving Repr, DecidableEq

/-- An iTunes search response: `resultCount`, and the view URL of each entry
of `results[]` for the searched entity (`trackViewUrl` for songs,
`collectionViewUrl` for albums). -/
structure AMSearch where
  resultCount : Nat
  results : List String
deriving Repr, DecidableEq

/-- Model of `AppleMusic._format_query`: `'{} {}'.format(item.title, item.artist)`. -/
def AppleMusic.format_query (title artist : String) : String :=
  title ++ " " ++ artist

/-- The query `AppleMusic._search` builds from its arguments, with the
defaults of `_search`'s signature. -/
def AppleMusic.search_query (term : String) (media entity : Option String)
    (explicit : Option Bool) : AMQuery :=
  { term := term, country := "US", limit := 50, lang := "en_us", version := 2,
    explicit := explicit.map (fun b => if b then "Yes" else "No"),
    media := media, entity := entity, attrib := none }

/-- The search query issued by `AppleMusic.song_to_link`. -/
def AppleMusic.song_query (sg : Song) : AMQuery :=
  AppleMusic.search_query (AppleMusic.format_query sg.title sg.artist)
    (some "music") (some "song") (some true)

/-- The search query issued by `AppleMusic.album_to_link`. -/
def AppleMusic.album_query (al : Album) : AMQuery :=
  AppleMusic.search_query (AppleMusic.format_query al.title al.artist)
    (some "music") (some "album") (some true)

/-- Model of `AppleMusic.song_to_link`: search; `raise ValueError` when
`resultCount < 1`; otherwise `results[0]['trackViewUrl']` (an `IndexError` —
`malformed` — when `results` is empty despite the count). -/
def AppleMusic.song_to_link (env : AMQuery → Except Unit AMSearch)
    (sg : Song) : Except AdapterErr String :=
  match env (AppleMusic.song_query sg) with
  | .error _ => .error .transport
  | .ok r =>
    if r.resultCount < 1 then .error .resolution
    else
      match r.results with
      | [] => .error .malformed
      | u :: _ => .ok u

/-- Model of `AppleMusic.album_to_link`. -/
def AppleMusic.album_to_link (env : AMQuery → Except Unit AMSearch)
    (al : Album) : Except AdapterErr String :=
  match env (AppleMusic.album_query al) with
  | .error _ => .error .transport
  | .ok r =>
    if r.resultCount < 1 then .error .resolution
    else
      match r.results with
      | [] => .error .malformed
      | u :: _ => .ok u

/-- The data `AppleMusic.link_to_song`/`link_to_album` scrape from the page:
the deep-linked row's headline text, and the embedded `ld+json` schema's
`name` and `byArtist.name`.  A `none` field models the page element or JSON
key being absent (an exception in the Python).  HTML-entity unescaping
happens outside the model: the fields hold the unescaped values. -/
structure AMPage where
  trackName : Option String
  schemaName : Option String
  byArtist : Option String
deriving Repr, DecidableEq

/-- Model of `AppleMusic.link_to_album`. -/
def AppleMusic.link_to_album (env : String → Except Unit AMPage)
    (link : String) : Except AdapterErr Album :=
  match env link with
  | .error _ => .error .transport
  | .ok p =>
    match p.schemaName, p.byArtist with
    | some n, some a => .ok { title := n, artist := a }
    | _, _ => .error .malformed

/-- Model of `AppleMusic.link_to_song`. -/
def AppleMusic.link_to_song (env : String → Except Unit AMPage)
    (link : String) : Except AdapterErr Song :=
  match env link with
  | .error _ => .error .transport
  | .ok p =>
    match p.trackName, p.byArtist, p.schemaName with
    | some t, some a, some al => .ok { title := t, artist := a, album := some al }
    | _, _, _ => .error .malformed

/-! ## Spotify adapter (`converter.Spotify`) -/

/-- One step of `re.sub(r'\([^(]*\)', '', s)`: given the characters after an
opening `(`, the number of characters the (greedy, backtracking) match
consumes inside, i.e. through the last `)` of the maximal `(`-free prefix;
`none` when the pattern cannot match here. -/
def parenSpan (cs : List Char) : Option Nat :=
  let seg := cs.takeWhile (fun c => c ≠ '(')
  match seg.reverse.findIdx? (fun c => c == ')') with
  | none => none
  | some k => some (seg.length - k)

/-- Model of `re.sub(Spotify._PARENS_PATTERN, '', ·)` on character lists. -/
def stripParens : List Char → List Char
  | [] => []
  | c :: rest =>
    if c = '(' then
      match parenSpan rest with
      | some n => stripParens (rest.drop n)
      | none => c :: stripParens rest
    else
      c :: stripParens rest
termination_by cs => cs.length
decreasing_by
  all_goals simp [List.length_drop]
  all_goals omega

/-- Model of `Spotify._format_query`: `artist:"..."` plus `track:"..."` for a Song or
`album:"..."` for an Album. -/
def Spotify.format_query : Item → String
  | .song s => "artist:\"" ++ s.artist ++ "\"" ++ " track:\"" ++ s.title ++ "\""
  | .album a => "artist:\"" ++ a.artist ++ "\"" ++ " album:\"" ++ a.title ++ "\""

/-- Model of `Spotify._naive_query`: parenthetical qualifiers stripped from the title,
then `'{} {}'.format(title, artist)`. -/
def Spotify.naive_query (title artist : String) : String :=
  (⟨stripParens title.toList⟩ : String) ++ " " ++ artist

/-- A Spotify search response, already narrowed to the relevant collection
(`tracks` or `albums`): its `total` and each item's
`external_urls['spotify']`. -/
structure SpotSearch where
  total : Nat
  items : List String
deriving Repr, DecidableEq

/-- Model of `Spotify.song_to_link`, instrumented with the list of search queries
issued, in order.  The environment takes the query string and the optional
`type=` argument of `spotipy.Spotify.search` (absent for the default track
search). -/
def Spotify.song_to_link (env : String → Option String → Except Unit SpotSearch)
    (sg : Song) : List String × Except AdapterErr String :=
  let q1 := Spotify.format_query (.song sg)
  match env q1 none with
  | .error _ => ([q1], .error .transport)
  | .ok r1 =>
    if r1.total < 1 then
      let q2 := Spotify.naive_query sg.title sg.artist
      match env q2 none with
      | .error _ => ([q1, q2], .error .transport)
      | .ok r2 =>
        if r2.total < 1 then ([q1, q2], .error .resolution)
        else
          match r2.items with
          | [] => ([q1, q2], .error .malformed)
          | u :: _ => ([q1, q2], .ok u)
    else
      match r1.items with
      | [] => ([q1], .error .malformed)
      | u :: _ => ([q1], .ok u)

/-- Model of `Spotify.album_to_link`, instrumented like `song_to_link`; both its
searches pass `type='album'`. -/
def Spotify.album_to_link (env : String → Option String → Except Unit SpotSearch)
    (al : Album) : List String × Except AdapterErr String :=
  let q1 := Spotify.format_query (.album al)
  match env q1 (some "album") with
  | .error _ => ([q1], .error .transport)
  | .ok r1 =>
    if r1.total < 1 then
      let q2 := Spotify.naive_query al.title al.artist
      match env q2 (some "album") with
      | .error _ => ([q1, q2], .error .transport)
      | .ok r2 =>
        if r2.total < 1 then ([q1, q2], .error .resolution)
        else
          match r2.items with
          | [] => ([q1, q2], .error .malformed)
          | u :: _ => ([q1, q2], .ok u)
    else
      match r1.items with
      | [] => ([q1], .error .malformed)
      | u :: _ => ([q1], .ok u)

/-- The fields `Spotify.link_to_song` reads from `spotipy.Spotify.track`:
`name`, `artists[]` names, `album.name`.  `none`/`[]` model a missing key or
empty collection. -/
structure SpotTrack where
  name : Option String
  artists : List String
  albumName : Option String
deriving Repr, DecidableEq

/-- The fields `Spotify.link_to_album` reads from `spotipy.Spotify.album`. -/
structure SpotAlbum where
  name : Option String
  artists : List String
deriving Repr, DecidableEq

/-- Model of `Spotify.link_to_song`. -/
def Spotify.link_to_song (env : String → Except Unit SpotTrack)
    (link : String) : Except AdapterErr Song :=
  match env link with
  | .error _ => .error .transport
  | .ok t =>
    match t.name, t.artists, t.albumName with
    | some n, a :: _, some al => .ok { title := n, artist := a, album := some al }
    | _, _, _ => .error .malformed

/-- Model of `Spotify.link_to_album`. -/
def Spotify.link_to_album (env : String → Except Unit SpotAlbum)
    (link : String) : Except AdapterErr Album :=
  match env link with
  | .error _ => .error .transport
  | .ok a =>
    match a.name, a.artists with
    | some n, ar :: _ => .ok { title := n, artist := ar }
    | _, _ => .error .malformed

/-! ## YouTube adapter (`converter.YouTube`) -/

/-- The parameters `YouTube` sends to the `search` endpoint. -/
structure YTQuery where
  part : String
  maxResults : Nat
  q : String
  type : String
deriving Repr, DecidableEq

/-- The parameters `YouTube.link_to_album` sends to the `playlists`
endpoint. -/
structure YTPlaylistQuery where
  part : String
  id : String
deriving Repr, DecidableEq

/-- A YouTube API response: for each entry of `items[]`, the one field the
code reads (`id.playlistId`, `id.videoId`, or `snippet.title` depending on
the call). -/
structure YTResp where
  items : List String
deriving Repr, DecidableEq

/-- Model of `YouTube._format_album_query`. -/
def YouTube.format_album_query (title artist : String) : String :=
  title ++ " " ++ artist ++ " full album"

/-- Model of `YouTube._format_song_query`. -/
def YouTube.format_song_query (title artist : String) : String :=
  title ++ " " ++ artist ++ " topic"

/-- Model of `YouTube._link_to_id`: `parse_qs(urlparse(link).query)['list'][0]`;
`none` models both the `ValueError` of a failing parse and the `KeyError`
when the link has no `list` parameter (either way `_link_to_id` raises). -/
def YouTube.link_to_id (link : String) : Option String :=
  match queryPairs link with
  | .error _ => none
  | .ok ps => (ps.filter (fun p => p.1 == "list")).head?.map (·.2)

/-- Model of `YouTube._playlist_link`. -/
def YouTube.playlist_link (pid : String) : String :=
  "https://www.youtube.com/playlist?list=" ++ pid

/-- Model of `YouTube._video_link`. -/
def YouTube.video_link (vid : String) : String :=
  "https://youtube.com/watch?v=" ++ vid

/-- The search query issued by `YouTube.song_to_link`. -/
def YouTube.song_query (sg : Song) : YTQuery :=
  { part := "snippet", maxResults := 1,
    q := YouTube.format_song_query sg.title sg.artist, type := "video" }

/-- The search query issued by `YouTube.album_to_link`. -/
def YouTube.album_query (al : Album) : YTQuery :=
  { part := "snippet", maxResults := 1,
    q := YouTube.format_album_query al.title al.artist, type := "playlist" }

/-- Model of `YouTube.song_to_link`. -/
def YouTube.song_to_link (env : YTQuery → Except Unit YTResp)
    (sg : Song) : Except AdapterErr String :=
  match env (YouTube.song_query sg) with
  | .error _ => .error .transport
  | .ok r =>
    match r.items with
    | [] => .error .resolution
    | v :: _ => .ok (YouTube.video_link v)

/-- Model of `YouTube.album_to_link`. -/
def YouTube.album_to_link (env : YTQuery → Except Unit YTResp)
    (al : Album) : Except AdapterErr String :=
  match env (YouTube.album_query al) with
  | .error _ => .error .transport
  | .ok r =>
    match r.items with
    | [] => .error .resolution
    | p :: _ => .ok (YouTube.playlist_link p)

/-- Model of `YouTube.link_to_album`: fetch the playlist; `raise ValueError` when
`items` is empty; otherwise an Album with the playlist's `snippet.title` and
an empty artist ("because we really can't know"). -/
def YouTube.link_to_album (env : YTPlaylistQuery → Except Unit YTResp)
    (link : String) : Except AdapterErr Album :=
  match YouTube.link_to_id link with
  | none => .error .malformed
  | some pid =>
    match env { part := "snippet", id := pid } with
    | .error _ => .error .transport
    | .ok r =>
      match r.items with
      | [] => .error .resolution
      | t :: _ => .ok { title := t, artist := "" }

/-- The scan of the `watch-meta-item` rows in `YouTube.link_to_song`: each
row's `(h4 heading, first value)`, folded left with later rows overwriting
earlier ones; yields `(title?, artist?, album?)`. -/
def YouTube.scan_meta (rows : List (String × String)) :
    Option String × Option String × Option String :=
  rows.foldl
    (fun acc nv =>
      if nv.1 = "Song" then (some nv.2, acc.2.1, acc.2.2)
      else if nv.1 = "Artist" then (acc.1, some nv.2, acc.2.2)
      else if nv.1 = "Album" then (acc.1, acc.2.1, some nv.2)
      else acc)
    (none, none, none)

/-- Model of `YouTube.link_to_song`: scrape the page's metadata rows; `raise
ValueError('Not a song')` when the title or the artist was never seen; the
album may stay `None`.  The environment yields the scraped rows (or a fetch
failure). -/
def YouTube.link_to_song (env : String → Except Unit (List (String × String)))
    (link : String) : Except AdapterErr Song :=
  match env link with
  | .error _ => .error .transport
  | .ok rows =>
    match YouTube.scan_meta rows with
    | (some t, some a, alb) => .ok { title := t, artist := a, album := alb }
    | _ => .error .resolution

/-! ## Network environment

One record bundling every outbound call's modelled outcome, so the resolver
can be stated over an arbitrary state of the remote services. -/

structure NetEnv where
  amPage : String → Except Unit AMPage
  amSearch : AMQuery → Except Unit AMSearch
  spotTrack : String → Except Unit SpotTrack
  spotAlbum : String → Except Unit SpotAlbum
  spotSearch : String → Option String → Except Unit SpotSearch
  ytSearch : YTQuery → Except Unit YTResp
  ytPlaylist : YTPlaylistQuery → Except Unit YTResp
  ytSongPage : String → Except Unit (List (String × String))

/-- Modelled from the spec: `link_to_object`, called by
`handler.handle_link` but absent from `converter.py` — "Ask the source
adapter whether the link is a song or an album; call the corresponding
`link_to_*` extractor."  A `link_is_song` that raises makes the whole call
raise (it runs inside `handle_link`'s `try`). -/
def link_to_object (env : NetEnv) (s : Service) (link : String) :
    Except AdapterErr Item :=
  match s.link_is_song link with
  | .error _ => .error .malformed
  | .ok true =>
    (match s with
     | .appleMusic => AppleMusic.link_to_song env.amPage link
     | .youtube => YouTube.link_to_song env.ytSongPage link
     | .spotify => Spotify.link_to_song env.spotTrack link).map .song
  | .ok false =>
    (match s with
     | .appleMusic => AppleMusic.link_to_album env.amPage link
     | .youtube => YouTube.link_to_album env.ytPlaylist link
     | .spotify => Spotify.link_to_album env.spotAlbum link).map .album

/-- Modelled from the spec: `object_to_link`, called by `handler.make_iqr`
but absent from `converter.py` — "attempt the reciprocal
`song_to_link`/`album_to_link` call", dispatching on the item's tag. -/
def object_to_link (env : NetEnv) (s : Service) : Item → Except AdapterErr String
  | .song sg =>
    match s with
    | .appleMusic => AppleMusic.song_to_link env.amSearch sg
    | .youtube => YouTube.song_to_link env.ytSearch sg
    | .spotify => (Spotify.song_to_link env.spotSearch sg).2
  | .album al =>
    match s with
    | .appleMusic => AppleMusic.album_to_link env.amSearch al
    | .youtube => YouTube.album_to_link env.ytSearch al
    | .spotify => (Spotify.album_to_link env.spotSearch al).2

/-! ## Result building (`handler.make_iqr` / `bot.LinkMusicBot.make_iqr`;
the two bodies are identical) -/

/-- Modelled from the spec: `pawt.InlineKeyboardMarkupBuilder`, an external
collaborator — "build a list of labeled links"; `add_button` appends to the
row under construction, `new_row` closes it. -/
structure Builder where
  rows : List (List (String × String))
  current : List (String × String)

def Builder.add_button (b : Builder) (label url : String) : Builder :=
  { b with current := b.current ++ [(label, url)] }

def Builder.new_row (b : Builder) : Builder :=
  { rows := b.rows ++ [b.current], current := [] }

def Builder.build (b : Builder) : List (List (String × String)) :=
  if b.current.isEmpty then b.rows else b.rows ++ [b.current]

/-- An `InlineQueryResult`: either `InlineQueryResultPhoto(id, photo, thumb,
width, height, title, caption=..., reply_markup=...)` or
`InlineQueryResultArticle(id, title, InputTextMessageContent(text),
reply_markup=...)`. -/
inductive IQR where
  | photo (id photoUrl thumbUrl : String) (width height : Nat)
      (title caption : String) (markup : List (List (String × String)))
  | article (id title text : String) (markup : List (List (String × String)))

def IQR.markup : IQR → List (List (String × String))
  | .photo _ _ _ _ _ _ _ m => m
  | .article _ _ _ m => m

/-- The buttons of a result, flattened in row order. -/
def IQR.buttons (r : IQR) : List (String × String) :=
  r.markup.flatten

/-- The display string the user sees: the photo caption, or the article's
message text (both are `str(item)` in `make_iqr`). -/
def IQR.display : IQR → String
  | .photo _ _ _ _ _ _ caption _ => caption
  | .article _ _ text _ => text

/-- Model of `handler.make_iqr` with the random `get_id()` passed in as `rid`: try
every service's `object_to_link`; on success add a button and close the row,
on any exception skip the service; then build a photo result when the item
has cover art, else an article. -/
def make_iqr (env : NetEnv) (rid : String) (item : Item) : IQR :=
  let b := MUSIC_SERVICES.foldl
    (fun (b : Builder) s =>
      match object_to_link env s item with
      | .ok url => (b.add_button s.service_name url).new_row
      | .error _ => b)
    ⟨[], []⟩
  match item.cover_art with
  | some art =>
    .photo rid art.url art.url art.width art.height item.str item.str b.build
  | none => .article rid item.str item.str b.build

/-! ## Resolution (`handler.handle_link` / `bot.LinkMusicBot.handle_link`;
the two bodies are identical) -/

/-- The `for service in MUSIC_SERVICES` loop of `handle_link`: the first
service whose `can_handle_link` is true extracts (failure → `None`, success
→ break and `make_iqr`); the `else` clause of the loop returns `None`.  The
`can_handle_link` call sits outside the `try` (handler.py line 78), so an
exception it raises propagates out of `handle_link`. -/
def handle_link_aux (env : NetEnv) (rid link : String) :
    List Service → Except Unit (Option IQR)
  | [] => .ok none
  | s :: rest =>
    match s.can_handle_link link with
    | .error e => .error e
    | .ok true =>
      match link_to_object env s link with
      | .error _ => .ok none
      | .ok item => .ok (some (make_iqr env rid item))
    | .ok false => handle_link_aux env rid link rest

/-- Model of `handler.handle_link`. -/
def handle_link (env : NetEnv) (rid link : String) : Except Unit (Option IQR) :=
  handle_link_aux env rid link MUSIC_SERVICES

/-- The service the loop of `handle_link` selects: the first whose
`can_handle_link` answers true; an exception from `can_handle_link` ends the
loop with that exception (specification vocabulary for `handle_link`). -/
def find_service (link : String) : List Service → Except Unit (Option Service)
  | [] => .ok none
  | s :: rest =>
    match s.can_handle_link link with
    | .error e => .error e
    | .ok true => .ok (some s)
    | .ok false => find_service link rest

/-- Model of `handler.SEARCH_SERVICE`: the first configured service with a `search`
attribute, else `None` (the loop's `else` clause). -/
def SEARCH_SERVICE : Option Service :=
  MUSIC_SERVICES.find? Service.hasSearch

/-- Model of `handler.handle_search`.  `searchEnv` models the would-be `search`
method's hits; it is only reachable when `SEARCH_SERVICE` is not `None`. -/
def handle_search (env : NetEnv) (searchEnv : Service → String → List Item)
    (rid query : String) : List IQR :=
  match SEARCH_SERVICE with
  | none => []
  | some s => (searchEnv s query).map (make_iqr env rid)

/-- The result list computed by `handler.inline_query_handler`: a found link
gives exactly `[response]`, otherwise the (possibly empty) search results.
Its `try` catches only `APIException`, so a `ValueError` escaping
`handle_link` propagates. -/
def inline_query_results (env : NetEnv)
    (searchEnv : Service → String → List Item) (rid query : String) :
    Except Unit (List IQR) :=
  match handle_link env rid query with
  | .error e => .error e
  | .ok (some r) => .ok [r]
  | .ok none => .ok (handle_search env searchEnv rid query)

/-! ## Message dispatch (`handler.message_handler` and
`bot.LinkMusicBot.message_handler`, which differ) -/

/-- A message entity as the handlers see it: a `BotCommand` carrying its
command string, or any other entity kind. -/
inductive Entity where
  | botCommand (command : String)
  | other
deriving Repr, DecidableEq

/-- An apostrophe, kept out of the string literals below. -/
def apos : String :=
  String.singleton (Char.ofNat 39)

/-- The fixed help string both message handlers send. -/
def HELP_TEXT : String :=
  "Hello! I" ++ apos ++ "m designed to be used in inline mode. Type my name "
    ++ "followed by the link to a song on your favorite music service! "
    ++ "I work in all chats."

/-- Model of `handler.message_handler`: scan all entities; the first `BotCommand`
whose command lowercases to `/start` triggers a `sendMessage` of `HELP_TEXT`
to the message's chat; otherwise no response (`None`). -/
def message_handler (chatId : String) : List Entity → Option (String × String)
  | [] => none
  | .botCommand cmd :: rest =>
    if strLower cmd == "/start" then some (chatId, HELP_TEXT)
    else message_handler chatId rest
  | .other :: rest => message_handler chatId rest

/-- Model of `bot.LinkMusicBot.message_handler`: like `handler.message_handler`, but
the loop `break`s after the first `BotCommand` entity whether or not it
matched. -/
def bot_message_handler : List Entity → Option String
  | [] => none
  | .botCommand cmd :: _ =>
    if strLower cmd == "/start" then some HELP_TEXT else none
  | .other :: rest => bot_message_handler rest

/-- The first `BotCommand` entity's command string, if any (specification
vocabulary for `bot_message_handler`). -/
def firstCommand : List Entity → Option String
  | [] => none
  | .botCommand cmd :: _ => some cmd
  | .other :: rest => firstCommand rest

/-! ## Concrete sample data used to exercise the theorems -/

def demoSong : Song :=
  { title := "Song X", artist := "Artist Y", album := some "Album Z" }

def demoAlbum : Album :=
  { title := "Album Z", artist := "Artist Y" }

/-- A sample network state: Spotify metadata lookup and search succeed,
Apple Music search succeeds, every YouTube lookup fails. -/
def demoNetEnv : NetEnv where
  amPage := fun _ => .error ()
  amSearch := fun _ =>
    .ok { resultCount := 1, results := ["https://itunes.apple.com/us/song/1"] }
  spotTrack := fun _ =>
    .ok { name := some "Song X", artists := ["Artist Y"], albumName := some "Album Z" }
  spotAlbum := fun _ => .error ()
  spotSearch := fun _ _ =>
    .ok { total := 1, items := ["https://open.spotify.com/track/xyz"] }
  ytSearch := fun _ => .error ()
  ytPlaylist := fun _ => .error ()
  ytSongPage := fun _ => .ok [("Song", "Song X"), ("Artist", "Artist Y")]

def demoSearchEnv : Service → String → List Item := fun _ _ => []

/-! ## Helper lemmas -/

theorem flatten_map_singleton {α : Type} (l : List α) :
    (l.map (fun x => [x])).flatten = l := by
  induction l with
  | nil => rfl
  | cons a t ih => simp [ih]

/-- The keyboard-building fold of `make_iqr` produces one singleton row per
service whose reciprocal lookup succeeded, in iteration order. -/
theorem make_iqr_build_spec (env : NetEnv) (item : Item) :
    ∀ (l : List Service) (rows : List (List (String × String))),
      (l.foldl
        (fun (b : Builder) s =>
          match object_to_link env s item with
          | .ok url => (b.add_button s.service_name url).new_row
          | .error _ => b)
        ⟨rows, []⟩).build
      = rows ++ (l.filterMap
          (fun s =>
            match object_to_link env s item with
            | .ok url => some (s.service_name, url)
            | .error _ => none)).map (fun x => [x]) := by
  intro l
  induction l with
  | nil => intro rows; simp [Builder.build]
  | cons s rest ih =>
    intro rows
    simp only [List.foldl_cons, List.filterMap_cons]
    cases h : object_to_link env s item with
    | ok url =>
      have hb : ((Builder.add_button ⟨rows, []⟩ s.service_name url).new_row)
          = (⟨rows ++ [[(s.service_name, url)]], []⟩ : Builder) := by
        simp [Builder.add_button, Builder.new_row]
      simp only [h, hb, ih]
      simp
    | error e =>
      simp only [h, ih]

/-- The displayed string of a built result is always `str(item)`. -/
theorem make_iqr_display (env : NetEnv) (rid : String) (item : Item) :
    (make_iqr env rid item).display = item.str := by
  unfold make_iqr
  cases h : item.cover_art <;> simp [h, IQR.display]

/-- Stripping parenthesised segments never lengthens a string. -/
theorem stripParens_length_le : ∀ cs : List Char,
    (stripParens cs).length ≤ cs.length
  | [] => by
    rw [stripParens]
  | c :: rest => by
    by_cases hc : c = '('
    · subst hc
      rw [stripParens, if_pos rfl]
      cases hp : parenSpan rest with
      | some n =>
        simp only [hp]
        have h := stripParens_length_le (rest.drop n)
        simp only [List.length_drop] at h
        simp only [List.length_cons]
        omega
      | none =>
        simp only [hp]
        have h := stripParens_length_le rest
        simp only [List.length_cons]
        omega
    · rw [stripParens, if_neg hc]
      have h := stripParens_length_le rest
      simp only [List.length_cons]
      omega
termination_by cs => cs.length
decreasing_by
  all_goals simp [List.length_drop]
  all_goals omega

/-! ## Claim theorems -/

/-- C2: during the reciprocal-link fan-out of `make_iqr`, the built result's
buttons are exactly the successful `object_to_link` outcomes, one per
succeeding service, in the fixed configured adapter order; a failing
adapter is skipped and never aborts the construction (the function is total
and the other adapters' buttons survive). -/
theorem c2_make_iqr_collects_successes_in_order :
    ∀ (env : NetEnv) (rid : String) (item : Item),
      (make_iqr env rid item).buttons
        = MUSIC_SERVICES.filterMap
            (fun s =>
              match object_to_link env s item with
              | .ok url => some (s.service_name, url)
              | .error _ => none) := by
  intro env rid item
  cases h : item.cover_art <;>
    simp only [make_iqr, IQR.buttons, h, IQR.markup] <;>
    rw [make_iqr_build_spec env item MUSIC_SERVICES []] <;>
    simp [flatten_map_singleton]

/-- C2 witness: with YouTube (the middle adapter) failing and the other two
succeeding, the buttons are Apple Music's and Spotify's links, in configured
order. -/
theorem c2_witness :
    (make_iqr demoNetEnv "id0" (.song demoSong)).buttons
      = [("Apple Music", "https://itunes.apple.com/us/song/1"),
         ("Spotify", "https://open.spotify.com/track/xyz")] := by
  rw [c2_make_iqr_collects_successes_in_order demoNetEnv "id0" (.song demoSong)]
  rfl

/-- C6: no configured adapter exposes a search capability, so the
search-capable adapter selected at startup is `None` and `handle_search`
returns the empty list for every query, without error. -/
theorem c6_handle_search_always_empty :
    SEARCH_SERVICE = none ∧
    ∀ (env : NetEnv) (searchEnv : Service → String → List Item) (rid q : String),
      handle_search env searchEnv rid q = [] := by
  refine ⟨rfl, ?_⟩
  intro env searchEnv rid q
  unfold handle_search
  rw [show SEARCH_SERVICE = (none : Option Service) from rfl]

/-- C8: the claim says `can_handle_link` never throws, but at the link
`//[` (a netloc with a mismatched bracket) the `urlparse` call inside every
adapter's `can_handle_link` raises `ValueError("Invalid IPv6 URL")`; on
well-formed URLs the predicates return their host comparison. -/
theorem c8_can_handle_link_throws_on_invalid_ipv6 :
    AppleMusic.can_handle_link "//[" = .error () ∧
    YouTube.can_handle_link "//[" = .error () ∧
    Spotify.can_handle_link "//[" = .error () ∧
    AppleMusic.can_handle_link "https://itunes.apple.com/us/album/x?i=1" = .ok true ∧
    Spotify.can_handle_link "https://open.spotify.com/track/abc" = .ok true ∧
    YouTube.can_handle_link "https://youtu.be/abc" = .ok true := by
  refine ⟨rfl, rfl, rfl, rfl, rfl, rfl⟩

/-- C9: evaluating the display strings.  The Album format is `<title> by
<artist>` as claimed, but the Song separator in `converter.py` is the
three-character sequence `â€”` (a double-encoded em-dash), not the em-dash
`—` the claim states. -/
theorem c9_display_string_eval :
    Song.str demoSong = "Artist Y â€” Song X" ∧
    Song.str demoSong ≠ "Artist Y — Song X" ∧
    Album.str demoAlbum = "Album Z by Artist Y" := by
  refine ⟨rfl, by decide, rfl⟩

/-- C3: the claim says resolution returns `None` exactly when no adapter's
`can_handle_link` returns true or the first matching adapter's extraction
fails.  At the link `//[`, no adapter returns true — each `can_handle_link`
raises instead (handler.py line 78, outside the `try`) — and `handle_link`
raises rather than returning `None`; on a well-formed unrecognized link it
does return `None`, and an extraction failure also yields `None`. -/
theorem c3_handle_link_raises_on_invalid_ipv6 :
    handle_link demoNetEnv "id0" "//[" = .error () ∧
    Service.can_handle_link .appleMusic "//[" = .error () ∧
    Service.can_handle_link .youtube "//[" = .error () ∧
    Service.can_handle_link .spotify "//[" = .error () ∧
    handle_link demoNetEnv "id0" "https://example.com/nope" = .ok none ∧
    handle_link
        { demoNetEnv with spotTrack := fun _ => .error () } "id0"
        "https://open.spotify.com/track/abc" = .ok none := by
  refine ⟨rfl, rfl, rfl, rfl, rfl, rfl⟩

/-- The resolution loop returns the built result when the loop's service
selection picks `s` and the extraction succeeds. -/
theorem handle_link_aux_found (env : NetEnv) (rid link : String) (s : Service)
    (item : Item) (hex : link_to_object env s link = .ok item) :
    ∀ l : List Service,
      find_service link l = .ok (some s) →
      handle_link_aux env rid link l = .ok (some (make_iqr env rid item)) := by
  intro l
  induction l with
  | nil => intro h; simp [find_service] at h
  | cons a rest ih =>
    intro h
    cases hc : a.can_handle_link link with
    | error e =>
      simp only [find_service, hc] at h
      exact Except.noConfusion h
    | ok b =>
      cases b with
      | false =>
        simp only [find_service, hc] at h
        simp only [handle_link_aux, hc]
        exact ih h
      | true =>
        simp only [find_service, hc, Except.ok.injEq, Option.some.injEq] at h
        subst h
        simp only [handle_link_aux, hc, hex]

/-- C1: when some adapter recognizes the link (the first one the loop
reaches with `can_handle_link` true) and its metadata extraction succeeds,
resolution returns exactly one presentable result — `handle_link` yields it
and the inline-query response is the one-element list — and its display
string is exactly the extracted item's display string. -/
theorem c1_resolve_success (env : NetEnv)
    (searchEnv : Service → String → List Item) (rid link : String)
    (s : Service) (item : Item)
    (hfind : find_service link MUSIC_SERVICES = .ok (some s))
    (hex : link_to_object env s link = .ok item) :
    handle_link env rid link = .ok (some (make_iqr env rid item)) ∧
    (make_iqr env rid item).display = item.str ∧
    inline_query_results env searchEnv rid link
      = .ok [make_iqr env rid item] := by
  have h1 : handle_link env rid link = .ok (some (make_iqr env rid item)) :=
    handle_link_aux_found env rid link s item hex MUSIC_SERVICES hfind
  refine ⟨h1, make_iqr_display env rid item, ?_⟩
  unfold inline_query_results
  rw [h1]

/-- C1 witness: a Spotify track link whose metadata lookup succeeds resolves
to exactly one result displaying the extracted song. -/
theorem c1_witness :
    handle_link demoNetEnv "id0" "https://open.spotify.com/track/abc"
        = .ok (some (make_iqr demoNetEnv "id0" (.song demoSong))) ∧
    (make_iqr demoNetEnv "id0" (.song demoSong)).display = (Item.song demoSong).str ∧
    inline_query_results demoNetEnv demoSearchEnv "id0"
        "https://open.spotify.com/track/abc"
      = .ok [make_iqr demoNetEnv "id0" (.song demoSong)] :=
  c1_resolve_success demoNetEnv demoSearchEnv "id0"
    "https://open.spotify.com/track/abc" .spotify (.song demoSong)
    rfl rfl

/-- C10 counterexample: `bot.py`'s `message_handler` breaks after the first
`BotCommand` entity, so a message whose first command is `/help` and whose
second is `/start` contains a token that case-insensitively equals the start
command and yet produces no response. -/
theorem c10_counterexample_bot_stops_at_first_command :
    bot_message_handler [.botCommand "/help", .botCommand "/start"] = none ∧
    Entity.botCommand "/start" ∈
      ([.botCommand "/help", .botCommand "/start"] : List Entity) ∧
    strLower "/start" = "/start" := by
  refine ⟨by decide, by decide, by decide⟩

/-- C10 amended: `handler.py`'s dispatcher responds with the fixed help
string exactly when the message contains some command token that
case-insensitively equals `/start`, and produces no response otherwise;
`bot.py`'s dispatcher inspects only the first command token and responds
exactly when that token matches. -/
theorem c10_message_dispatch_amended :
    ∀ (chatId : String) (entities : List Entity),
      ((message_handler chatId entities).isSome ↔
        ∃ cmd, Entity.botCommand cmd ∈ entities ∧ strLower cmd = "/start") ∧
      (message_handler chatId entities = none ∨
        message_handler chatId entities = some (chatId, HELP_TEXT)) ∧
      ((bot_message_handler entities).isSome ↔
        ∃ cmd, firstCommand entities = some cmd ∧ strLower cmd = "/start") ∧
      (bot_message_handler entities = none ∨
        bot_message_handler entities = some HELP_TEXT) := by
  intro chatId entities
  induction entities with
  | nil => simp [message_handler, bot_message_handler, firstCommand]
  | cons e rest ih =>
    obtain ⟨ih1, ih2, ih3, ih4⟩ := ih
    cases e with
    | other =>
      simpa [message_handler, bot_message_handler, firstCommand]
        using ⟨ih1, ih2, ih3, ih4⟩
    | botCommand cmd =>
      by_cases h : strLower cmd = "/start"
      · refine ⟨?_, ?_, ?_, ?_⟩
        · simp only [message_handler, h, beq_self_eq_true, if_true,
            Option.isSome_some, true_iff]
          exact ⟨cmd, List.mem_cons_self _ _, h⟩
        · simp [message_handler, h]
        · simp only [bot_message_handler, h, beq_self_eq_true, if_true,
            Option.isSome_some, true_iff, firstCommand]
          exact ⟨cmd, rfl, h⟩
        · simp [bot_message_handler, h]
      · have hb : (strLower cmd == "/start") = false := by
          simp [h]
        refine ⟨?_, ?_, ?_, ?_⟩
        · simp only [message_handler, hb, Bool.false_eq_true, if_false, ih1]
          constructor
          · rintro ⟨c, hc, hlc⟩
            exact ⟨c, List.mem_cons_of_mem _ hc, hlc⟩
          · rintro ⟨c, hc, hlc⟩
            rcases List.mem_cons.mp hc with h1 | h1
            · cases h1
              exact absurd hlc h
            · exact ⟨c, h1, hlc⟩
        · simp only [message_handler, hb, Bool.false_eq_true, if_false]
          exact ih2
        · simp only [bot_message_handler, hb, Bool.false_eq_true, if_false,
            Option.isSome_none, false_iff, firstCommand]
          rintro ⟨c, hc, hlc⟩
          cases hc
          exact h hlc
        · simp [bot_message_handler, hb]

/-- C10 witness: a lone `/START` command (case-insensitive match) makes
`handler.py`'s dispatcher respond. -/
theorem c10_witness :
    (message_handler "chat1" [.botCommand "/START"]).isSome :=
  (c10_message_dispatch_amended "chat1" [.botCommand "/START"]).1.mpr
    ⟨"/START", by decide, by decide⟩

/-- The queries `Spotify.song_to_link` issues, characterized by the exact
search's outcome alone. -/
theorem spotify_song_log (env : String → Option String → Except Unit SpotSearch)
    (sg : Song) :
    (Spotify.song_to_link env sg).1
      = match env (Spotify.format_query (.song sg)) none with
        | .error _ => [Spotify.format_query (.song sg)]
        | .ok r =>
          if r.total < 1 then
            [Spotify.format_query (.song sg),
             Spotify.naive_query sg.title sg.artist]
          else [Spotify.format_query (.song sg)] := by
  simp only [Spotify.song_to_link]
  generalize env (Spotify.format_query (.song sg)) none = x
  cases x with
  | error e => simp
  | ok r =>
    obtain ⟨tot, items⟩ := r
    by_cases ht : tot < 1
    · simp only [if_pos ht]
      generalize env (Spotify.naive_query sg.title sg.artist) none = y
      cases y with
      | error e => simp [ht]
      | ok r2 =>
        obtain ⟨tot2, items2⟩ := r2
        by_cases ht2 : tot2 < 1
        · simp [ht, ht2]
        · cases items2 <;> simp [ht, ht2]
    · cases items <;> simp [ht]

/-- The queries `Spotify.album_to_link` issues, characterized by the exact
search's outcome alone. -/
theorem spotify_album_log (env : String → Option String → Except Unit SpotSearch)
    (al : Album) :
    (Spotify.album_to_link env al).1
      = match env (Spotify.format_query (.album al)) (some "album") with
        | .error _ => [Spotify.format_query (.album al)]
        | .ok r =>
          if r.total < 1 then
            [Spotify.format_query (.album al),
             Spotify.naive_query al.title al.artist]
          else [Spotify.format_query (.album al)] := by
  simp only [Spotify.album_to_link]
  generalize env (Spotify.format_query (.album al)) (some "album") = x
  cases x with
  | error e => simp
  | ok r =>
    obtain ⟨tot, items⟩ := r
    by_cases ht : tot < 1
    · simp only [if_pos ht]
      generalize env (Spotify.naive_query al.title al.artist) (some "album") = y
      cases y with
      | error e => simp [ht]
      | ok r2 =>
        obtain ⟨tot2, items2⟩ := r2
        by_cases ht2 : tot2 < 1
        · simp [ht, ht2]
        · cases items2 <;> simp [ht, ht2]
    · cases items <;> simp [ht]

/-- The exact structured song query is never the relaxed one (it is at least
17 characters longer). -/
theorem spotify_exact_ne_naive_song (sg : Song) :
    Spotify.format_query (.song sg) ≠ Spotify.naive_query sg.title sg.artist := by
  intro h
  have hh := congrArg String.length h
  simp only [Spotify.format_query, Spotify.naive_query,
    String.length_append] at hh
  have e1 : ("artist:\"" : String).length = 8 := rfl
  have e2 : ("\"" : String).length = 1 := rfl
  have e3 : (" track:\"" : String).length = 8 := rfl
  have e4 : (" " : String).length = 1 := rfl
  have e5 : (⟨stripParens sg.title.toList⟩ : String).length
      = (stripParens sg.title.toList).length := rfl
  rw [e1, e2, e3, e4, e5] at hh
  have hs := stripParens_length_le sg.title.toList
  have ht : sg.title.toList.length = sg.title.length := rfl
  omega

/-- The exact structured album query is never the relaxed one. -/
theorem spotify_exact_ne_naive_album (al : Album) :
    Spotify.format_query (.album al) ≠ Spotify.naive_query al.title al.artist := by
  intro h
  have hh := congrArg String.length h
  simp only [Spotify.format_query, Spotify.naive_query,
    String.length_append] at hh
  have e1 : ("artist:\"" : String).length = 8 := rfl
  have e2 : ("\"" : String).length = 1 := rfl
  have e3 : (" album:\"" : String).length = 8 := rfl
  have e4 : (" " : String).length = 1 := rfl
  have e5 : (⟨stripParens al.title.toList⟩ : String).length
      = (stripParens al.title.toList).length := rfl
  rw [e1, e2, e3, e4, e5] at hh
  have hs := stripParens_length_le al.title.toList
  have ht : al.title.toList.length = al.title.length := rfl
  omega

/-- C4: for both Spotify operations the relaxed (parenthetical-stripped)
query is attempted at most once per call — the issued-query log is either
the exact query alone or the exact query followed once by the relaxed one,
and the two queries are never equal — it is attempted exactly when the exact
structured query returns zero results, and never when the exact query raises
a transport error. -/
theorem c4_spotify_relaxed_query_policy :
    ∀ (env : String → Option String → Except Unit SpotSearch)
      (sg : Song) (al : Album),
      ((Spotify.song_to_link env sg).1 = [Spotify.format_query (.song sg)] ∨
        (Spotify.song_to_link env sg).1
          = [Spotify.format_query (.song sg),
             Spotify.naive_query sg.title sg.artist]) ∧
      ((Spotify.song_to_link env sg).1
          = [Spotify.format_query (.song sg),
             Spotify.naive_query sg.title sg.artist]
        ↔ ∃ r, env (Spotify.format_query (.song sg)) none = .ok r ∧
            r.total < 1) ∧
      Spotify.format_query (.song sg) ≠ Spotify.naive_query sg.title sg.artist ∧
      ((Spotify.album_to_link env al).1 = [Spotify.format_query (.album al)] ∨
        (Spotify.album_to_link env al).1
          = [Spotify.format_query (.album al),
             Spotify.naive_query al.title al.artist]) ∧
      ((Spotify.album_to_link env al).1
          = [Spotify.format_query (.album al),
             Spotify.naive_query al.title al.artist]
        ↔ ∃ r, env (Spotify.format_query (.album al)) (some "album") = .ok r ∧
            r.total < 1) ∧
      Spotify.format_query (.album al) ≠ Spotify.naive_query al.title al.artist := by
  intro env sg al
  have hs := spotify_song_log env sg
  have ha := spotify_album_log env al
  refine ⟨?_, ?_, spotify_exact_ne_naive_song sg, ?_, ?_,
    spotify_exact_ne_naive_album al⟩
  · rw [hs]
    generalize env (Spotify.format_query (.song sg)) none = x
    cases x with
    | error e => exact Or.inl rfl
    | ok r =>
      by_cases ht : r.total < 1
      · exact Or.inr (by simp [ht])
      · exact Or.inl (by simp [ht])
  · rw [hs]
    generalize env (Spotify.format_query (.song sg)) none = x
    cases x with
    | error e => simp
    | ok r =>
      by_cases ht : r.total < 1
      · simp only [if_pos ht, true_iff]
        exact ⟨r, rfl, ht⟩
      · simp only [if_neg ht]
        constructor
        · intro hlog; simp at hlog
        · rintro ⟨r', hr', ht'⟩
          obtain rfl : r = r' := by injection hr'
          exact absurd ht' ht
  · rw [ha]
    generalize env (Spotify.format_query (.album al)) (some "album") = x
    cases x with
    | error e => exact Or.inl rfl
    | ok r =>
      by_cases ht : r.total < 1
      · exact Or.inr (by simp [ht])
      · exact Or.inl (by simp [ht])
  · rw [ha]
    generalize env (Spotify.format_query (.album al)) (some "album") = x
    cases x with
    | error e => simp
    | ok r =>
      by_cases ht : r.total < 1
      · simp only [if_pos ht, true_iff]
        exact ⟨r, rfl, ht⟩
      · simp only [if_neg ht]
        constructor
        · intro hlog; simp at hlog
        · rintro ⟨r', hr', ht'⟩
          obtain rfl : r = r' := by injection hr'
          exact absurd ht' ht

def c4DemoEnv : String → Option String → Except Unit SpotSearch :=
  fun _ _ => .ok { total := 0, items := [] }

/-- C4 witness: when the exact search succeeds with zero results, the
relaxed query is issued (once, after the exact one). -/
theorem c4_witness :
    (Spotify.song_to_link c4DemoEnv demoSong).1
      = [Spotify.format_query (.song demoSong),
         Spotify.naive_query demoSong.title demoSong.artist] :=
  ((c4_spotify_relaxed_query_policy c4DemoEnv demoSong demoAlbum).2.1).mpr
    ⟨{ total := 0, items := [] }, rfl, by decide⟩

/-- C5: for every adapter, `song_to_link` and `album_to_link` return the URL
of the first (top) result of the service's search response when it is
non-empty, and fail with the explicit `ValueError` (`ResolutionError`)
exactly when the search — including Spotify's relaxed retry — returns zero
results.  The well-formedness hypotheses say the service's reported result
count matches its result list, which is how the responses arrive. -/
theorem c5_top_result_or_resolution_error :
    ∀ (amEnv : AMQuery → Except Unit AMSearch)
      (ytEnv : YTQuery → Except Unit YTResp)
      (spotEnv : String → Option String → Except Unit SpotSearch)
      (sg : Song) (al : Album),
      (∀ q r, amEnv q = .ok r → r.resultCount = r.results.length) →
      (∀ q t r, spotEnv q t = .ok r → r.total = r.items.length) →
      ((AppleMusic.song_to_link amEnv sg = .error .resolution ↔
          ∃ r, amEnv (AppleMusic.song_query sg) = .ok r ∧ r.results = []) ∧
       (∀ r u rest, amEnv (AppleMusic.song_query sg) = .ok r →
          r.results = u :: rest → AppleMusic.song_to_link amEnv sg = .ok u)) ∧
      ((AppleMusic.album_to_link amEnv al = .error .resolution ↔
          ∃ r, amEnv (AppleMusic.album_query al) = .ok r ∧ r.results = []) ∧
       (∀ r u rest, amEnv (AppleMusic.album_query al) = .ok r →
          r.results = u :: rest → AppleMusic.album_to_link amEnv al = .ok u)) ∧
      ((YouTube.song_to_link ytEnv sg = .error .resolution ↔
          ∃ r, ytEnv (YouTube.song_query sg) = .ok r ∧ r.items = []) ∧
       (∀ r v rest, ytEnv (YouTube.song_query sg) = .ok r →
          r.items = v :: rest →
          YouTube.song_to_link ytEnv sg = .ok (YouTube.video_link v))) ∧
      ((YouTube.album_to_link ytEnv al = .error .resolution ↔
          ∃ r, ytEnv (YouTube.album_query al) = .ok r ∧ r.items = []) ∧
       (∀ r p rest, ytEnv (YouTube.album_query al) = .ok r →
          r.items = p :: rest →
          YouTube.album_to_link ytEnv al = .ok (YouTube.playlist_link p))) ∧
      (((Spotify.song_to_link spotEnv sg).2 = .error .resolution ↔
          ∃ r1 r2, spotEnv (Spotify.format_query (.song sg)) none = .ok r1 ∧
            r1.items = [] ∧
            spotEnv (Spotify.naive_query sg.title sg.artist) none = .ok r2 ∧
            r2.items = []) ∧
       (∀ r u rest, spotEnv (Spotify.format_query (.song sg)) none = .ok r →
          r.items = u :: rest → (Spotify.song_to_link spotEnv sg).2 = .ok u) ∧
       (∀ r1 r2 u rest,
          spotEnv (Spotify.format_query (.song sg)) none = .ok r1 →
          r1.items = [] →
          spotEnv (Spotify.naive_query sg.title sg.artist) none = .ok r2 →
          r2.items = u :: rest →
          (Spotify.song_to_link spotEnv sg).2 = .ok u)) ∧
      (((Spotify.album_to_link spotEnv al).2 = .error .resolution ↔
          ∃ r1 r2,
            spotEnv (Spotify.format_query (.album al)) (some "album") = .ok r1 ∧
            r1.items = [] ∧
            spotEnv (Spotify.naive_query al.title al.artist) (some "album") = .ok r2 ∧
            r2.items = []) ∧
       (∀ r u rest,
          spotEnv (Spotify.format_query (.album al)) (some "album") = .ok r →
          r.items = u :: rest → (Spotify.album_to_link spotEnv al).2 = .ok u) ∧
       (∀ r1 r2 u rest,
          spotEnv (Spotify.format_query (.album al)) (some "album") = .ok r1 →
          r1.items = [] →
          spotEnv (Spotify.naive_query al.title al.artist) (some "album") = .ok r2 →
          r2.items = u :: rest →
          (Spotify.album_to_link spotEnv al).2 = .ok u)) := by
  intro amEnv ytEnv spotEnv sg al hwAm hwSpot
  refine ⟨⟨?_, ?_⟩, ⟨?_, ?_⟩, ⟨?_, ?_⟩, ⟨?_, ?_⟩, ⟨?_, ?_, ?_⟩, ⟨?_, ?_, ?_⟩⟩
  -- AppleMusic song: resolution ↔ zero results
  · simp only [AppleMusic.song_to_link]
    generalize hx : amEnv (AppleMusic.song_query sg) = x
    cases x with
    | error e => simp
    | ok r =>
      have hz := hwAm _ _ hx
      obtain ⟨cnt, res⟩ := r
      by_cases hc : cnt < 1
      · cases res with
        | nil => simp [hc]
        | cons u rest =>
          simp only [List.length_cons] at hz
          exfalso; omega
      · cases res with
        | nil =>
          simp only [List.length_nil] at hz
          exfalso; omega
        | cons u rest => simp [hc]
  -- AppleMusic song: top result
  · intro r u rest he hi
    have hz := hwAm _ _ he
    have h1 : ¬ r.resultCount < 1 := by rw [hz, hi]; simp
    simp only [AppleMusic.song_to_link, he, if_neg h1, hi]
  -- AppleMusic album: resolution ↔ zero results
  · simp only [AppleMusic.album_to_link]
    generalize hx : amEnv (AppleMusic.album_query al) = x
    cases x with
    | error e => simp
    | ok r =>
      have hz := hwAm _ _ hx
      obtain ⟨cnt, res⟩ := r
      by_cases hc : cnt < 1
      · cases res with
        | nil => simp [hc]
        | cons u rest =>
          simp only [List.length_cons] at hz
          exfalso; omega
      · cases res with
        | nil =>
          simp only [List.length_nil] at hz
          exfalso; omega
        | cons u rest => simp [hc]
  -- AppleMusic album: top result
  · intro r u rest he hi
    have hz := hwAm _ _ he
    have h1 : ¬ r.resultCount < 1 := by rw [hz, hi]; simp
    simp only [AppleMusic.album_to_link, he, if_neg h1, hi]
  -- YouTube song: resolution ↔ zero results
  · simp only [YouTube.song_to_link]
    generalize hx : ytEnv (YouTube.song_query sg) = x
    cases x with
    | error e => simp
    | ok r =>
      obtain ⟨items⟩ := r
      cases items with
      | nil => simp
      | cons v rest => simp
  -- YouTube song: top result
  · intro r v rest he hi
    simp only [YouTube.song_to_link, he, hi]
  -- YouTube album: resolution ↔ zero results
  · simp only [YouTube.album_to_link]
    generalize hx : ytEnv (YouTube.album_query al) = x
    cases x with
    | error e => simp
    | ok r =>
      obtain ⟨items⟩ := r
      cases items with
      | nil => simp
      | cons p rest => simp
  -- YouTube album: top result
  · intro r p rest he hi
    simp only [YouTube.album_to_link, he, hi]
  -- Spotify song: resolution ↔ both searches empty
  · simp only [Spotify.song_to_link]
    generalize hx1 : spotEnv (Spotify.format_query (.song sg)) none = x
    cases x with
    | error e => simp
    | ok r1 =>
      have hz1 := hwSpot _ _ _ hx1
      obtain ⟨tot1, items1⟩ := r1
      by_cases ht1 : tot1 < 1
      · simp only [if_pos ht1]
        generalize hx2 : spotEnv (Spotify.naive_query sg.title sg.artist) none = y
        cases y with
        | error e => simp
        | ok r2 =>
          have hz2 := hwSpot _ _ _ hx2
          obtain ⟨tot2, items2⟩ := r2
          by_cases ht2 : tot2 < 1
          · cases items1 with
            | cons u rest =>
              simp only [List.length_cons] at hz1
              exfalso; omega
            | nil =>
              cases items2 with
              | cons u rest =>
                simp only [List.length_cons] at hz2
                exfalso; omega
              | nil => simp [ht2]
          · cases items2 with
            | nil =>
              simp only [List.length_nil] at hz2
              exfalso; omega
            | cons u rest => simp [ht2]
      · cases items1 with
        | nil =>
          simp only [List.length_nil] at hz1
          exfalso; omega
        | cons u rest => simp [ht1]
  -- Spotify song: top result on the exact search
  · intro r u rest he hi
    have hz := hwSpot _ _ _ he
    have h1 : ¬ r.total < 1 := by rw [hz, hi]; simp
    simp only [Spotify.song_to_link, he, if_neg h1, hi]
  -- Spotify song: top result on the relaxed retry
  · intro r1 r2 u rest he1 hi1 he2 hi2
    have hz1 := hwSpot _ _ _ he1
    have hz2 := hwSpot _ _ _ he2
    have h1 : r1.total < 1 := by rw [hz1, hi1]; simp
    have h2 : ¬ r2.total < 1 := by rw [hz2, hi2]; simp
    simp only [Spotify.song_to_link, he1, if_pos h1, he2, if_neg h2, hi2]
  -- Spotify album: resolution ↔ both searches empty
  · simp only [Spotify.album_to_link]
    generalize hx1 : spotEnv (Spotify.format_query (.album al)) (some "album") = x
    cases x with
    | error e => simp
    | ok r1 =>
      have hz1 := hwSpot _ _ _ hx1
      obtain ⟨tot1, items1⟩ := r1
      by_cases ht1 : tot1 < 1
      · simp only [if_pos ht1]
        generalize hx2 :
          spotEnv (Spotify.naive_query al.title al.artist) (some "album") = y
        cases y with
        | error e => simp
        | ok r2 =>
          have hz2 := hwSpot _ _ _ hx2
          obtain ⟨tot2, items2⟩ := r2
          by_cases ht2 : tot2 < 1
          · cases items1 with
            | cons u rest =>
              simp only [List.length_cons] at hz1
              exfalso; omega
            | nil =>
              cases items2 with
              | cons u rest =>
                simp only [List.length_cons] at hz2
                exfalso; omega
              | nil => simp [ht2]
          · cases items2 with
            | nil =>
              simp only [List.length_nil] at hz2
              exfalso; omega
            | cons u rest => simp [ht2]
      · cases items1 with
        | nil =>
          simp only [List.length_nil] at hz1
          exfalso; omega
        | cons u rest => simp [ht1]
  -- Spotify album: top result on the exact search
  · intro r u rest he hi
    have hz := hwSpot _ _ _ he
    have h1 : ¬ r.total < 1 := by rw [hz, hi]; simp
    simp only [Spotify.album_to_link, he, if_neg h1, hi]
  -- Spotify album: top result on the relaxed retry
  · intro r1 r2 u rest he1 hi1 he2 hi2
    have hz1 := hwSpot _ _ _ he1
    have hz2 := hwSpot _ _ _ he2
    have h1 : r1.total < 1 := by rw [hz1, hi1]; simp
    have h2 : ¬ r2.total < 1 := by rw [hz2, hi2]; simp
    simp only [Spotify.album_to_link, he1, if_pos h1, he2, if_neg h2, hi2]

def c5YtEnv : YTQuery → Except Unit YTResp :=
  fun _ => .ok { items := [] }

def c5SpotEnv : String → Option String → Except Unit SpotSearch :=
  fun _ _ => .ok { total := 0, items := [] }

/-- C5 witness: a non-empty Apple Music search returns its top URL; an empty
YouTube search and a doubly-empty Spotify search fail with the resolution
error. -/
theorem c5_witness :
    AppleMusic.song_to_link demoNetEnv.amSearch demoSong
        = .ok "https://itunes.apple.com/us/song/1" ∧
    YouTube.album_to_link c5YtEnv demoAlbum = .error .resolution ∧
    (Spotify.song_to_link c5SpotEnv demoSong).2 = .error .resolution := by
  have h := c5_top_result_or_resolution_error demoNetEnv.amSearch c5YtEnv
    c5SpotEnv demoSong demoAlbum
    (fun q r hr => by cases hr; rfl)
    (fun q t r hr => by cases hr; rfl)
  refine ⟨?_, ?_, ?_⟩
  · exact h.1.2 { resultCount := 1, results := ["https://itunes.apple.com/us/song/1"] }
      "https://itunes.apple.com/us/song/1" [] rfl rfl
  · exact (h.2.2.2.1.1).mpr ⟨{ items := [] }, rfl, rfl⟩
  · exact (h.2.2.2.2.1.1).mpr
      ⟨{ total := 0, items := [] }, { total := 0, items := [] }, rfl, rfl, rfl, rfl⟩

def c7PageEnv : String → Except Unit (List (String × String)) :=
  fun _ => .ok [("Song", "Song X"), ("Artist", "Artist Y")]

/-- C7 counterexample: `YouTube.link_to_song` happily returns a Song whose
`album` is empty (`None`) when the page has Song and Artist rows but no
Album row — an empty field the claim reserves to AppleMusic/Spotify songs
and YouTube albums. -/
theorem c7_counterexample_youtube_song_album_empty :
    YouTube.link_to_song c7PageEnv "https://youtu.be/abc"
      = .ok { title := "Song X", artist := "Artist Y", album := none } := by
  rfl

/-- C7 amended: no extractor returns an item with a missing required field —
`YouTube.link_to_song` succeeds only with the page's Song and Artist values
and fails otherwise — and the fields that may be empty are the album of a
YouTube song (in addition to the claim's AppleMusic/Spotify allowance, which
in fact never produce an absent album) and the artist of a YouTube-derived
album. -/
theorem c7_amended_no_partial_items :
    ∀ (pageEnv : String → Except Unit (List (String × String)))
      (plEnv : YTPlaylistQuery → Except Unit YTResp)
      (amEnv : String → Except Unit AMPage)
      (spEnv : String → Except Unit SpotTrack) (link : String),
      (∀ sg, YouTube.link_to_song pageEnv link = .ok sg →
        ∃ rows, pageEnv link = .ok rows ∧
          (YouTube.scan_meta rows).1 = some sg.title ∧
          (YouTube.scan_meta rows).2.1 = some sg.artist) ∧
      (∀ rows, pageEnv link = .ok rows →
        ((YouTube.scan_meta rows).1 = none ∨ (YouTube.scan_meta rows).2.1 = none) →
        YouTube.link_to_song pageEnv link = .error .resolution) ∧
      (∀ al, YouTube.link_to_album plEnv link = .ok al → al.artist = "") ∧
      (∀ sg, AppleMusic.link_to_song amEnv link = .ok sg → sg.album ≠ none) ∧
      (∀ sg, Spotify.link_to_song spEnv link = .ok sg → sg.album ≠ none) := by
  intro pageEnv plEnv amEnv spEnv link
  refine ⟨?_, ?_, ?_, ?_, ?_⟩
  · intro sg h
    simp only [YouTube.link_to_song] at h
    rcases hpe : pageEnv link with e | rows
    · rw [hpe] at h; simp at h
    · rw [hpe] at h
      simp at h
      refine ⟨rows, rfl, ?_⟩
      rcases hscan : YouTube.scan_meta rows with ⟨t0, a0, alb⟩
      rw [hscan] at h
      cases t0 with
      | none => simp at h
      | some t =>
        cases a0 with
        | none => simp at h
        | some a =>
          injection h with h'
          rw [← h']
          exact ⟨rfl, rfl⟩
  · intro rows he hmiss
    simp only [YouTube.link_to_song, he]
    rcases hscan : YouTube.scan_meta rows with ⟨t0, a0, alb⟩
    rw [hscan] at hmiss
    cases t0 with
    | none => rfl
    | some t =>
      cases a0 with
      | none => rfl
      | some a => simp at hmiss
  · intro al h
    simp only [YouTube.link_to_album] at h
    rcases hid : YouTube.link_to_id link with _ | pid
    · rw [hid] at h; simp at h
    · rw [hid] at h
      simp at h
      rcases hres : plEnv { part := "snippet", id := pid } with e | r
      · rw [hres] at h; simp at h
      · rw [hres] at h
        simp at h
        rcases hi : r.items with _ | ⟨t, rest⟩
        · rw [hi] at h; simp at h
        · rw [hi] at h
          injection h with h'
          rw [← h']
  · intro sg h
    simp only [AppleMusic.link_to_song] at h
    rcases he : amEnv link with e | p
    · rw [he] at h; simp at h
    · rw [he] at h
      obtain ⟨tn, sn, ba⟩ := p
      cases tn with
      | none => simp at h
      | some t =>
        cases ba with
        | none => simp at h
        | some a =>
          cases sn with
          | none => simp at h
          | some al2 =>
            injection h with h'
            rw [← h']
            simp
  · intro sg h
    simp only [Spotify.link_to_song] at h
    rcases he : spEnv link with e | t
    · rw [he] at h; simp at h
    · rw [he] at h
      obtain ⟨nm, arts, alb⟩ := t
      cases nm with
      | none => simp at h
      | some n =>
        cases arts with
        | nil => simp at h
        | cons a arest =>
          cases alb with
          | none => simp at h
          | some al2 =>
            injection h with h'
            rw [← h']
            simp

/-- C7 witness: a successful YouTube song extraction draws its title and
artist from the page's metadata rows. -/
theorem c7_witness :
    ∃ rows, c7PageEnv "https://youtu.be/abc" = .ok rows ∧
      (YouTube.scan_meta rows).1 = some "Song X" ∧
      (YouTube.scan_meta rows).2.1 = some "Artist Y" :=
  (c7_amended_no_partial_items c7PageEnv (fun _ => .error ())
    (fun _ => .error ()) (fun _ => .error ()) "https://youtu.be/abc").1
    { title := "Song X", artist := "Artist Y", album := none } rfl

end LinkMusicBot
